import Mathlib

/-
Verification of the SOCKS5 protocol engine (pkg/socks5/request.go).

The Go code is shallowly embedded: byte streams are lists of natural
numbers (each intended below 256, exactly as produced by reads of bytes),
readers are modelled by explicit state passing (a function consumes a
prefix of the list and returns the rest), machine integer conversions are
modelled with explicit reductions modulo 2 ^ 16, and fallible operations
return Except or Option values.  External effects (the resolver, the TCP
dial, UDP sockets, connection writes) are parameters of the corresponding
functions, so that each code path is a pure function of its inputs.
-/

namespace Mieru.Socks5

/-- Modelled from the spec: the fixed SOCKS5 protocol version byte.  The
constant socks5Version is declared in a sibling file of the package that is
not part of the reviewed sources; the wire format in the spec is the SOCKS5
subset, whose version byte is 5. -/
def socks5Version : Nat := 5

/-- Command constants from request.go. -/
def ConnectCommand : Nat := 1

def BindCommand : Nat := 2

def AssociateCommand : Nat := 3

def ipv4Address : Nat := 1

def fqdnAddress : Nat := 3

def ipv6Address : Nat := 4

/-- Reply status codes from request.go (iota block). -/
def successReply : Nat := 0

def serverFailure : Nat := 1

def ruleFailure : Nat := 2

def networkUnreachable : Nat := 3

def hostUnreachable : Nat := 4

def connectionRefused : Nat := 5

def ttlExpired : Nat := 6

def commandNotSupported : Nat := 7

def addrTypeNotSupported : Nat := 8

/-- Error values observable from the embedded code paths.  Constructors
mirror the error values the Go code produces: stderror constants, the
package level unrecognizedAddrType, wrapped I/O failures, and so on. -/
inductive GoError where
  | shortRead
  | unrecognizedAddrType
  | unsupportedVersion (b : Nat)
  | noEnoughData
  | invalidArgument
  | unsupportedOp
  | resolveFailed
  | policyDenied
  | dialFailed
  | sendReplyFailed
  | formatAddrFailed
  | unsupportedCommand (c : Nat)
  | connReadFailed
  | udpReadFailed
  | tunnelWriteFailed
  deriving DecidableEq

/-- Decidable equality on Except results, used to evaluate the embedded
functions on concrete inputs. -/
instance exceptDecEq {ε α : Type} [DecidableEq ε] [DecidableEq α] :
    DecidableEq (Except ε α) := fun a b =>
  match a, b with
  | .error e, .error f =>
    if h : e = f then .isTrue (by rw [h])
    else .isFalse (fun c => h (by cases c; rfl))
  | .error _, .ok _ => .isFalse (fun c => Except.noConfusion c)
  | .ok _, .error _ => .isFalse (fun c => Except.noConfusion c)
  | .ok x, .ok y =>
    if h : x = y then .isTrue (by rw [h])
    else .isFalse (fun c => h (by cases c; rfl))

/-- Model of io.ReadFull on a list based stream: return the k bytes read
and the rest of the stream, or none (with the stream exhausted) when fewer
than k bytes remain. -/
def readFull (k : Nat) (r : List Nat) : Option (List Nat) × List Nat :=
  if k ≤ r.length then (some (r.take k), r.drop k) else (none, [])

/-- Big endian decoding of two port bytes, as in request.go line 562:
(int(port[0]) << 8) | int(port[1]). -/
def portVal (b0 b1 : Nat) : Nat := (b0 <<< 8) ||| b1

/-- AddrSpec from request.go.  The FQDN string is kept as its byte list,
IP is the raw net.IP byte list (empty list models a nil IP), and Port is
the Go int field. -/
structure AddrSpec where
  FQDN : List Nat
  IP : List Nat
  Port : Int
  deriving DecidableEq

/-- Model of net.IP.To4: a 4 byte address is returned unchanged, a
16 byte address with the IPv4 in IPv6 prefix (10 zero bytes then two 0xff
bytes) yields its last 4 bytes, anything else yields none. -/
def ipTo4 (ip : List Nat) : Option (List Nat) :=
  if ip.length = 4 then some ip
  else if ip.length = 16 ∧ (ip.take 10).all (· = 0) ∧
      ip.getD 10 0 = 255 ∧ ip.getD 11 0 = 255 then
    some (ip.drop 12)
  else none

/-- Model of net.IP.To16: a 4 byte address is widened to its IPv4 in IPv6
form, a 16 byte address is returned unchanged, anything else yields none. -/
def ipTo16 (ip : List Nat) : Option (List Nat) :=
  if ip.length = 4 then
    some ([0, 0, 0, 0, 0, 0, 0, 0, 0, 0, 255, 255] ++ ip)
  else if ip.length = 16 then some ip
  else none

/-- The 16 byte IPv6 loopback address (net.IPv6loopback). -/
def ipv6Loopback : List Nat := [0, 0, 0, 0, 0, 0, 0, 0, 0, 0, 0, 0, 0, 0, 0, 1]

/-- Model of net.IP.IsLoopback: when To4 succeeds the first byte of the
4 byte form must be 127, otherwise the address must equal the 16 byte
IPv6 loopback address. -/
def ipIsLoopback (ip : List Nat) : Bool :=
  match ipTo4 ip with
  | some ip4 => ip4.getD 0 0 == 127
  | none => ip == ipv6Loopback

/-- readAddrSpec from request.go lines 517 to 565: read one address type
byte, then a type dependent address (4 bytes for IPv4, 16 bytes for IPv6,
or a length byte followed by that many FQDN bytes), then two big endian
port bytes.  The second component of the result is the unread rest of the
stream, making the number of consumed bytes explicit. -/
def readAddrSpec (r : List Nat) : Except GoError AddrSpec × List Nat :=
  match readFull 1 r with
  | (none, r1) => (.error .shortRead, r1)
  | (some t, r1) =>
    if t.getD 0 0 = ipv4Address then
      match readFull 4 r1 with
      | (none, r2) => (.error .shortRead, r2)
      | (some addr, r2) =>
        match readFull 2 r2 with
        | (none, r3) => (.error .shortRead, r3)
        | (some p, r3) =>
          (.ok ⟨[], addr, (portVal (p.getD 0 0) (p.getD 1 0) : Int)⟩, r3)
    else if t.getD 0 0 = ipv6Address then
      match readFull 16 r1 with
      | (none, r2) => (.error .shortRead, r2)
      | (some addr, r2) =>
        match readFull 2 r2 with
        | (none, r3) => (.error .shortRead, r3)
        | (some p, r3) =>
          (.ok ⟨[], addr, (portVal (p.getD 0 0) (p.getD 1 0) : Int)⟩, r3)
    else if t.getD 0 0 = fqdnAddress then
      match readFull 1 r1 with
      | (none, r2) => (.error .shortRead, r2)
      | (some lenB, r2) =>
        match readFull (lenB.getD 0 0) r2 with
        | (none, r3) => (.error .shortRead, r3)
        | (some fqdn, r3) =>
          match readFull 2 r3 with
          | (none, r4) => (.error .shortRead, r4)
          | (some p, r4) =>
            (.ok ⟨fqdn, [], (portVal (p.getD 0 0) (p.getD 1 0) : Int)⟩, r4)
    else (.error .unrecognizedAddrType, r1)

/-- Big endian encoding of a port, as in request.go lines 605 and 606:
the Go int is first converted to uint16 (reduction modulo 2 ^ 16, matching
two complement truncation), then split as byte(p >> 8) and byte(p & 0xff). -/
def portBytes (p : Int) : List Nat :=
  let u : Nat := (p % 65536).toNat
  [u >>> 8, u &&& 255]

/-- The message sendReply (request.go lines 568 to 611) formats and writes:
version byte, status byte, zero reserved byte, address type byte, address
body, two port bytes.  Returns none exactly when the Go code fails to
format the address (non nil address whose FQDN is empty and whose IP is
neither a 4 byte form nor a 16 byte form). -/
def sendReplyMsg (resp : Nat) (addr : Option AddrSpec) : Option (List Nat) :=
  match addr with
  | none =>
    some ([socks5Version, resp, 0, ipv4Address] ++ [0, 0, 0, 0] ++ [0, 0])
  | some a =>
    if a.FQDN ≠ [] then
      some ([socks5Version, resp, 0, fqdnAddress] ++
        ((a.FQDN.length % 256) :: a.FQDN) ++ portBytes a.Port)
    else
      match ipTo4 a.IP with
      | some ip4 =>
        some ([socks5Version, resp, 0, ipv4Address] ++ ip4 ++ portBytes a.Port)
      | none =>
        match ipTo16 a.IP with
        | some ip16 =>
          some ([socks5Version, resp, 0, ipv6Address] ++ ip16 ++ portBytes a.Port)
        | none => none

/-- Request from request.go.  The AuthContext field is opaque to all code
paths modelled here and is omitted; RemoteAddr is optional as in the Go
struct (nil modelled by none). -/
structure Request where
  Version : Nat
  Command : Nat
  RemoteAddr : Option AddrSpec
  DestAddr : AddrSpec
  deriving DecidableEq

/-- NewRequest from request.go lines 83 to 108: read three header bytes,
require the first to be the version constant, then read the destination
address.  The second component is the unread rest of the stream. -/
def NewRequest (conn : List Nat) : Except GoError Request × List Nat :=
  match readFull 3 conn with
  | (none, r1) => (.error .shortRead, r1)
  | (some header, r1) =>
    if header.getD 0 0 ≠ socks5Version then
      (.error (.unsupportedVersion (header.getD 0 0)), r1)
    else
      match readAddrSpec r1 with
      | (.error e, r2) => (.error e, r2)
      | (.ok dest, r2) =>
        (.ok ⟨socks5Version, header.getD 1 0, none, dest⟩, r2)

/-- The byte list of the string localhost. -/
def localhostBytes : List Nat := [108, 111, 99, 97, 108, 104, 111, 115, 116]

/-- isLocalhostDest from request.go lines 613 to 621.  The nil checks on
the request and its destination do not arise in this embedding, where both
are total values. -/
def isLocalhostDest (req : Request) : Bool :=
  req.DestAddr.FQDN == localhostBytes || ipIsLoopback req.DestAddr.IP

/-- The configuration and external capabilities consumed by
handleRequest: the resolver (FQDN bytes to IP bytes, fallible) and the
flag allowing local destinations. -/
structure ServerConfig where
  resolver : List Nat → Except GoError (List Nat)
  allowLocalDestination : Bool

/-- Outcome of the pre dispatch phase of handleRequest. -/
inductive PreOutcome where
  | abort (writes : List (List Nat)) (e : GoError)
  | proceed (req : Request)

/-- The resolve step of handleRequest (request.go lines 114 to 127): a
request with a non empty FQDN has its destination IP replaced by the
resolver result; on resolver failure a hostUnreachable reply is written
and the handler aborts.  The writeOk flag tells whether writes to the
client connection succeed. -/
def resolveDest (cfg : ServerConfig) (writeOk : Bool) (req : Request) : PreOutcome :=
  if req.DestAddr.FQDN ≠ [] then
    match cfg.resolver req.DestAddr.FQDN with
    | .error _ =>
      match sendReplyMsg hostUnreachable none with
      | some msg =>
        .abort [msg] (if writeOk then .resolveFailed else .sendReplyFailed)
      | none => .abort [] .formatAddrFailed
    | .ok ip =>
      .proceed { req with DestAddr := { req.DestAddr with IP := ip } }
  else .proceed req

/-- Outcome of handleRequest: either the handler finishes (having written
the listed reply messages, with the returned error, and performing no
relay I/O), or it enters the body of the connect or associate handler,
modelled separately. -/
inductive HandlerOutcome where
  | done (writes : List (List Nat)) (err : Option GoError)
  | toConnect (req : Request)
  | toAssociate (req : Request)
  deriving DecidableEq

/-- handleBind from request.go lines 187 to 194: increment the
unsupported command counter, write a commandNotSupported reply, and
return nil unless the reply write itself failed. -/
def handleBind (writeOk : Bool) : List (List Nat) × Option GoError :=
  match sendReplyMsg commandNotSupported none with
  | some msg => ([msg], if writeOk then none else some .sendReplyFailed)
  | none => ([], some .formatAddrFailed)

/-- handleRequest from request.go lines 111 to 149: resolve the
destination, enforce the local destination policy (returning an error
with no reply written when denied), then switch on the command. -/
def handleRequest (cfg : ServerConfig) (writeOk : Bool) (req : Request) : HandlerOutcome :=
  match resolveDest cfg writeOk req with
  | .abort w e => .done w (some e)
  | .proceed req1 =>
    if cfg.allowLocalDestination = false ∧ isLocalhostDest req1 = true then
      .done [] (some .policyDenied)
    else if req1.Command = ConnectCommand then .toConnect req1
    else if req1.Command = BindCommand then
      let r := handleBind writeOk
      .done r.1 r.2
    else if req1.Command = AssociateCommand then .toAssociate req1
    else
      match sendReplyMsg commandNotSupported none with
      | some msg =>
        .done [msg]
          (some (if writeOk then .unsupportedCommand req1.Command else .sendReplyFailed))
      | none => .done [] (some .formatAddrFailed)

/-- Boolean test of a list starting with another list. -/
def startsWith : List Char → List Char → Bool
  | _, [] => true
  | [], _ :: _ => false
  | a :: s, b :: t => a == b && startsWith s t

/-- Model of strings.Contains: some suffix of s starts with sub. -/
def containsSub (s sub : List Char) : Bool :=
  startsWith s sub ||
    (match s with
     | [] => false
     | _ :: s1 => containsSub s1 sub)

/-- The substring refused inspected by handleConnect. -/
def refusedText : List Char := "refused".toList

/-- The substring inspected by handleConnect for network unreachability. -/
def netUnreachableText : List Char := "network is unreachable".toList

/-- The dial error classification of request.go lines 156 to 167. -/
def classifyDialError (msg : List Char) : Nat :=
  if containsSub msg refusedText then connectionRefused
  else if containsSub msg netUnreachableText then networkUnreachable
  else hostUnreachable

/-- Result of the external TCP dial consumed by handleConnect: on success
the locally bound address, on failure the error text. -/
inductive DialResult where
  | ok (localIP : List Nat) (localPort : Int)
  | fail (msg : List Char)

/-- Outcome of handleConnect: failure with the written replies and the
returned error, or entry into the bidirectional relay after the listed
replies. -/
inductive ConnectOutcome where
  | failed (writes : List (List Nat)) (e : GoError)
  | relaying (writes : List (List Nat))
  deriving DecidableEq

/-- handleConnect from request.go lines 152 to 184, parameterized by the
dial result: on dial failure classify the error text, write the matching
reply, and return an error; on success write a success reply with the
local bind address and enter the relay. -/
def handleConnect (writeOk : Bool) (dial : DialResult) : ConnectOutcome :=
  match dial with
  | .fail msg =>
    match sendReplyMsg (classifyDialError msg) none with
    | some m => .failed [m] (if writeOk then .dialFailed else .sendReplyFailed)
    | none => .failed [] .formatAddrFailed
  | .ok ip port =>
    match sendReplyMsg successReply (some ⟨[], ip, port⟩) with
    | some m =>
      if writeOk then .relaying [m] else .failed [m] .sendReplyFailed
    | none => .failed [] .formatAddrFailed

/-- Byte i of the 64 KiB receive buffer of the outbound pump after a
datagram of data has been read into a fresh zeroed buffer: positions past
the datagram hold zero. -/
def bufGet (data : List Nat) (i : Nat) : Nat := data.getD i 0

/-- Go slicing buf[lo:hi] of the receive buffer. -/
def bufSlice (data : List Nat) (lo hi : Nat) : List Nat :=
  (List.range (hi - lo)).map (fun j => bufGet data (lo + j))

/-- One iteration of the outbound pump on a datagram read from the
tunnel.  The rejected constructor models the paths that store the given
error into the shared error box, increment the Socks5UDPAssociateErrors
counter, and return from the pump without any UDP write (request.go lines
249 to 276).  The send constructors model reaching WriteToUDP with the
given destination and payload (lines 278 to 331); for the FQDN form the
name is resolved externally before the write. -/
inductive OutboundStep where
  | rejected (e : GoError)
  | sendIPv4 (ip : List Nat) (port : Nat) (payload : List Nat)
  | sendFqdn (name : List Nat) (port : Nat) (payload : List Nat)
  | sendIPv6 (ip : List Nat) (port : Nat) (payload : List Nat)
  deriving DecidableEq

/-- The outbound pump body of handleAssociate (request.go lines 242 to
331) on one datagram of n bytes read into a fresh buffer.  Note the
payload slices buf[10:n+1], buf[7+fqdnLen:n+1] and buf[22:n+1] are taken
verbatim from the source. -/
def processOutboundDatagram (data : List Nat) : OutboundStep :=
  let n := data.length
  if n ≤ 6 then .rejected .noEnoughData
  else if bufGet data 0 ≠ 0 ∨ bufGet data 1 ≠ 0 then .rejected .invalidArgument
  else if bufGet data 2 ≠ 0 then .rejected .unsupportedOp
  else
    let addrType := bufGet data 3
    if addrType ≠ 1 ∧ addrType ≠ 3 ∧ addrType ≠ 4 then .rejected .invalidArgument
    else if (addrType = 1 ∧ n ≤ 10) ∨ (addrType = 3 ∧ n ≤ bufGet data 4 + 6) ∨
        (addrType = 4 ∧ n ≤ 22) then .rejected .noEnoughData
    else if addrType = 1 then
      .sendIPv4 (bufSlice data 4 8)
        ((bufGet data 8 <<< 8) + bufGet data 9)
        (bufSlice data 10 (n + 1))
    else if addrType = 3 then
      let fqdnLen := bufGet data 4
      .sendFqdn (bufSlice data 5 (5 + fqdnLen))
        ((bufGet data (5 + fqdnLen) <<< 8) + bufGet data (6 + fqdnLen))
        (bufSlice data (7 + fqdnLen) (n + 1))
    else
      .sendIPv6 (bufSlice data 4 20)
        ((bufGet data 20 <<< 8) + bufGet data 21)
        (bufSlice data 22 (n + 1))

/-- State of the shared single slot error box of handleAssociate
(request.go lines 230, 245, 251, 256, 262, 268, 273, 349 to 351, 362 to
364) together with the local progress of the two pumps at their final
error handling.  The outbound pump performs one atomic operation, an
unconditional Store; the inbound pump performs two, a Load followed by a
Store executed only when the Load returned nil.  The trace records every
stored error in store order. -/
structure BoxState where
  box : Option GoError
  outDone : Bool
  inLoaded : Option (Option GoError)
  inDone : Bool
  trace : List GoError
  deriving DecidableEq

/-- Initial state: empty box, neither pump has acted. -/
def initBox : BoxState := ⟨none, false, none, false, []⟩

/-- One atomic step of the outbound pump terminating with error e1: the
unconditional udpErr.Store of request.go line 245 (also lines 251, 256,
262, 268, 273). -/
def stepOutbound (e1 : GoError) (s : BoxState) : BoxState :=
  if s.outDone then s
  else { s with box := some e1, outDone := true, trace := s.trace ++ [e1] }

/-- One atomic step of the inbound pump terminating with error e2: first
the udpErr.Load of request.go line 349 or 362, then, only when that Load
returned nil, the Store of line 350 or 363. -/
def stepInbound (e2 : GoError) (s : BoxState) : BoxState :=
  if s.inDone then s
  else
    match s.inLoaded with
    | none => { s with inLoaded := some s.box }
    | some v =>
      if v = none then
        { s with box := some e2, inDone := true, trace := s.trace ++ [e2] }
      else { s with inDone := true }

/-- Run the two pumps under a schedule: true picks the outbound pump,
false the inbound pump. -/
def runBox (e1 e2 : GoError) : List Bool → BoxState → BoxState
  | [], s => s
  | c :: rest, s =>
    runBox e1 e2 rest (if c then stepOutbound e1 s else stepInbound e2 s)

/-- A well formed AddrSpec in the sense of the round trip property: an
IP form (empty FQDN and a 4 byte or 16 byte address) or an FQDN form (non
empty FQDN of at most 255 bytes, no IP, per the data model invariant that
at most one of the two is populated). -/
def validAddrSpec (a : AddrSpec) : Prop :=
  (a.FQDN = [] ∧ (a.IP.length = 4 ∨ a.IP.length = 16)) ∨
  (a.FQDN ≠ [] ∧ a.FQDN.length ≤ 255 ∧ a.IP = [])

/-- The AddrSpec actually reconstructed by reading back what sendReply
writes: identical to the input except that a 16 byte IPv4 mapped address
collapses to its 4 byte form, because sendReply encodes whatever To4
accepts as the IPv4 wire type. -/
def canonicalAddrSpec (a : AddrSpec) : AddrSpec :=
  if a.FQDN ≠ [] then ⟨a.FQDN, [], a.Port⟩
  else
    match ipTo4 a.IP with
    | some ip4 => ⟨[], ip4, a.Port⟩
    | none => ⟨[], a.IP, a.Port⟩

/-! Helper lemmas. -/

theorem shiftRight8 (u : Nat) : u >>> 8 = u / 256 := by
  have := Nat.shiftRight_eq_div_pow u 8
  norm_num at this
  exact this

theorem and255 (u : Nat) : u &&& 255 = u % 256 := by
  have := Nat.and_pow_two_sub_one_eq_mod u 8
  norm_num at this
  exact this

theorem portVal_recomb (u : Nat) : portVal (u >>> 8) (u &&& 255) = u := by
  have h2 : u % 256 < 2 ^ 8 := by
    have := Nat.mod_lt u (y := 256) (by norm_num)
    norm_num
    omega
  have h3 := Nat.mul_add_lt_is_or (b := u % 256) (i := 8) h2 (u / 256)
  unfold portVal
  rw [shiftRight8, and255, Nat.shiftLeft_eq]
  norm_num at h3 ⊢
  rw [mul_comm] at h3
  omega

theorem readFull_append (xs ys : List Nat) :
    readFull xs.length (xs ++ ys) = (some xs, ys) := by
  simp [readFull, List.take_left, List.drop_left]

theorem drop_length_sub_two (xs : List Nat) (a b : Nat) :
    (xs ++ [a, b]).drop ((xs ++ [a, b]).length - 2) = [a, b] := by
  have h : (xs ++ [a, b]).length - 2 = xs.length := by simp
  rw [h, List.drop_left]

theorem readAddrSpec_ipv4_eval (addr : List Nat) (h : addr.length = 4) (b0 b1 : Nat) :
    readAddrSpec (1 :: (addr ++ [b0, b1])) =
      (.ok ⟨[], addr, (portVal b0 b1 : Int)⟩, []) := by
  unfold readAddrSpec
  rw [show readFull 1 (1 :: (addr ++ [b0, b1])) = (some [1], addr ++ [b0, b1]) from
    readFull_append [1] _]
  have hr2 : readFull 4 (addr ++ [b0, b1]) = (some addr, [b0, b1]) := by
    rw [← h]
    exact readFull_append addr _
  have hr3 : readFull 2 [b0, b1] = (some [b0, b1], []) := by
    simpa using readFull_append [b0, b1] []
  simp [hr2, hr3, ipv4Address]

theorem readAddrSpec_ipv6_eval (addr : List Nat) (h : addr.length = 16) (b0 b1 : Nat) :
    readAddrSpec (4 :: (addr ++ [b0, b1])) =
      (.ok ⟨[], addr, (portVal b0 b1 : Int)⟩, []) := by
  unfold readAddrSpec
  rw [show readFull 1 (4 :: (addr ++ [b0, b1])) = (some [4], addr ++ [b0, b1]) from
    readFull_append [4] _]
  have hr2 : readFull 16 (addr ++ [b0, b1]) = (some addr, [b0, b1]) := by
    rw [← h]
    exact readFull_append addr _
  have hr3 : readFull 2 [b0, b1] = (some [b0, b1], []) := by
    simpa using readFull_append [b0, b1] []
  simp [hr2, hr3, ipv4Address, ipv6Address]

theorem readAddrSpec_fqdn_eval (name : List Nat) (h : name.length ≤ 255) (b0 b1 : Nat) :
    readAddrSpec (3 :: (name.length % 256) :: (name ++ [b0, b1])) =
      (.ok ⟨name, [], (portVal b0 b1 : Int)⟩, []) := by
  unfold readAddrSpec
  rw [show readFull 1 (3 :: (name.length % 256) :: (name ++ [b0, b1])) =
    (some [3], (name.length % 256) :: (name ++ [b0, b1])) from readFull_append [3] _]
  have hmod : name.length % 256 = name.length := Nat.mod_eq_of_lt (by omega)
  have hr1 : readFull 1 (name.length :: (name ++ [b0, b1])) =
      (some [name.length], name ++ [b0, b1]) :=
    readFull_append [name.length] _
  have hr2 : readFull name.length (name ++ [b0, b1]) = (some name, [b0, b1]) :=
    readFull_append name _
  have hr3 : readFull 2 [b0, b1] = (some [b0, b1], []) := by
    simpa using readFull_append [b0, b1] []
  simp [hr1, hmod, hr2, hr3, ipv4Address, ipv6Address, fqdnAddress]

/-! Claim theorems. -/

/-- C1 (code bug): the outbound pump is claimed to forward exactly the
DATA portion of the n bytes read, but the source slices buf[10:n+1]
(request.go line 285), so the UDP write carries one extra byte beyond the
datagram (zero on a fresh buffer, stale otherwise).  Evaluated on the
well formed IPv4 datagram RSV=0 FRAG=0 ATYP=1 DST=8.8.8.8:53 DATA=[171]:
the write payload is [171, 0] although the DATA portion is [171]. -/
theorem outbound_ipv4_payload_extra_byte :
    processOutboundDatagram [0, 0, 0, 1, 8, 8, 8, 8, 0, 53, 171] =
      .sendIPv4 [8, 8, 8, 8] 53 ([171] ++ [0]) ∧
    List.drop 10 [0, 0, 0, 1, 8, 8, 8, 8, 0, 53, 171] = [171] ∧
    ([171] ++ [0] : List Nat) ≠ [171] := by decide

/-- C5: readAddrSpec on a stream whose first byte is outside the set of
the three known address types fails with the unrecognized address type
error and consumes exactly that one byte: the unread rest of the stream
is precisely the input without its first byte. -/
theorem readAddrSpec_unknownType (b : Nat) (rest : List Nat)
    (h1 : b ≠ 1) (h3 : b ≠ 3) (h4 : b ≠ 4) :
    readAddrSpec (b :: rest) = (.error .unrecognizedAddrType, rest) := by
  unfold readAddrSpec
  rw [show readFull 1 (b :: rest) = (some [b], rest) from readFull_append [b] rest]
  simp [ipv4Address, ipv6Address, fqdnAddress, h1, h3, h4]

/-- Witness for C5 at the concrete type byte 2. -/
theorem readAddrSpec_unknownType_witness :
    readAddrSpec (2 :: [9, 9, 9]) = (.error .unrecognizedAddrType, [9, 9, 9]) :=
  readAddrSpec_unknownType 2 [9, 9, 9] (by decide) (by decide) (by decide)

/-- C9: NewRequest validates only the version byte of the three byte
header: for every command byte and every reserved byte, as soon as the
address portion parses, parsing succeeds and produces the same Request
whatever the reserved byte holds, with Version the constant 5 and the
command byte stored unvalidated. -/
theorem NewRequest_ignores_reserved (cmd rsv : Nat) (rest : List Nat)
    (d : AddrSpec) (rem : List Nat) (h : readAddrSpec rest = (.ok d, rem)) :
    NewRequest (socks5Version :: cmd :: rsv :: rest) =
      (.ok ⟨5, cmd, none, d⟩, rem) := by
  unfold NewRequest
  rw [show readFull 3 (socks5Version :: cmd :: rsv :: rest) =
      (some [socks5Version, cmd, rsv], rest) from
    readFull_append [socks5Version, cmd, rsv] rest]
  simp [socks5Version, h]

/-- Witness for C9 at the unknown command byte 99 and nonzero reserved
byte 7. -/
theorem NewRequest_ignores_reserved_witness :
    NewRequest (socks5Version :: 99 :: 7 :: [1, 8, 8, 8, 8, 0, 53]) =
      (.ok ⟨5, 99, none, ⟨[], [8, 8, 8, 8], 53⟩⟩, []) :=
  NewRequest_ignores_reserved 99 7 [1, 8, 8, 8, 8, 0, 53]
    ⟨[], [8, 8, 8, 8], 53⟩ [] (by decide)

/-- C2 counterexample: under the interleaving where the inbound pump
loads first, the outbound pump then stores its error, and the inbound
pump finally performs its conditional store, the first error recorded in
the box (the outbound error) is replaced by the later inbound error, so
the session does not report the first recorded error. -/
theorem errorBox_first_writer_loses :
    (runBox .connReadFailed .udpReadFailed [false, true, false] initBox).trace =
      [.connReadFailed, .udpReadFailed] ∧
    (runBox .connReadFailed .udpReadFailed [false, true, false] initBox).box =
      some .udpReadFailed ∧
    GoError.udpReadFailed ≠ GoError.connReadFailed := by decide

/-- C2 amended: over every interleaving of the two pumps (one atomic
store by the outbound pump; an atomic load then conditional store by the
inbound pump), the error the session reports is the LAST error stored
into the box, not the first: the outbound store is unconditional and the
inbound store fires whenever its earlier load saw an empty box.  The
first recorded error is reported exactly in the schedule where the
outbound store precedes the inbound load. -/
theorem errorBox_last_writer_wins (e1 e2 : GoError) (sched : List Bool)
    (hlen : sched.length = 3) (hcnt : sched.count true = 1) :
    (runBox e1 e2 sched initBox).box =
      (runBox e1 e2 sched initBox).trace.getLast? ∧
    (sched = [true, false, false] →
      (runBox e1 e2 sched initBox).trace = [e1] ∧
      (runBox e1 e2 sched initBox).box = some e1) := by
  match sched with
  | [a, b, c] =>
    cases a <;> cases b <;> cases c <;>
      simp_all [List.count_cons, runBox, stepOutbound, stepInbound, initBox]

/-- Witness for C2 amended at the schedule where the outbound pump stores
first. -/
theorem errorBox_last_writer_wins_witness :
    (runBox .connReadFailed .tunnelWriteFailed [true, false, false] initBox).box =
      (runBox .connReadFailed .tunnelWriteFailed
        [true, false, false] initBox).trace.getLast? ∧
    (runBox .connReadFailed .tunnelWriteFailed [true, false, false] initBox).trace =
      [.connReadFailed] ∧
    (runBox .connReadFailed .tunnelWriteFailed [true, false, false] initBox).box =
      some .connReadFailed :=
  ⟨(errorBox_last_writer_wins .connReadFailed .tunnelWriteFailed
      [true, false, false] (by decide) (by decide)).1,
   (errorBox_last_writer_wins .connReadFailed .tunnelWriteFailed
      [true, false, false] (by decide) (by decide)).2 rfl⟩

/-- C4: for a datagram whose reserved bytes and fragment byte are zero
and whose address type byte is one of 1, 3, 4, the outbound pump rejects
it (stores an error, increments the Socks5UDPAssociateErrors counter, and
returns without a UDP write) exactly when: ATYP=1 and n at most 10, or
ATYP=3 and n at most 6 plus the declared FQDN length byte, or ATYP=4 and
n at most 22, where n is the length of the datagram. -/
theorem outbound_length_guard (data : List Nat)
    (h0 : bufGet data 0 = 0) (h1 : bufGet data 1 = 0) (h2 : bufGet data 2 = 0)
    (h3 : bufGet data 3 = 1 ∨ bufGet data 3 = 3 ∨ bufGet data 3 = 4) :
    (∃ e, processOutboundDatagram data = .rejected e) ↔
      ((bufGet data 3 = 1 ∧ data.length ≤ 10) ∨
       (bufGet data 3 = 3 ∧ data.length ≤ 6 + bufGet data 4) ∨
       (bufGet data 3 = 4 ∧ data.length ≤ 22)) := by
  simp only [processOutboundDatagram]
  split_ifs with hA hB hC hD hE hF hG
  · constructor
    · intro _
      rcases h3 with h | h | h
      · exact Or.inl ⟨h, by omega⟩
      · exact Or.inr (Or.inl ⟨h, by omega⟩)
      · exact Or.inr (Or.inr ⟨h, by omega⟩)
    · intro _
      exact ⟨.noEnoughData, rfl⟩
  · omega
  · omega
  · omega
  · constructor
    · intro _
      rcases hE with ⟨h, hn⟩ | ⟨h, hn⟩ | ⟨h, hn⟩
      · exact Or.inl ⟨h, hn⟩
      · exact Or.inr (Or.inl ⟨h, by omega⟩)
      · exact Or.inr (Or.inr ⟨h, hn⟩)
    · intro _
      exact ⟨.noEnoughData, rfl⟩
  · constructor
    · rintro ⟨e, he⟩
      exact absurd he (by simp)
    · intro hcl
      exfalso
      rcases hcl with ⟨h, hn⟩ | ⟨h, hn⟩ | ⟨h, hn⟩
      · exact hE (Or.inl ⟨h, hn⟩)
      · exact hE (Or.inr (Or.inl ⟨h, by omega⟩))
      · exact hE (Or.inr (Or.inr ⟨h, hn⟩))
  · constructor
    · rintro ⟨e, he⟩
      exact absurd he (by simp)
    · intro hcl
      exfalso
      rcases hcl with ⟨h, hn⟩ | ⟨h, hn⟩ | ⟨h, hn⟩
      · exact hE (Or.inl ⟨h, hn⟩)
      · exact hE (Or.inr (Or.inl ⟨h, by omega⟩))
      · exact hE (Or.inr (Or.inr ⟨h, hn⟩))
  · constructor
    · rintro ⟨e, he⟩
      exact absurd he (by simp)
    · intro hcl
      exfalso
      rcases hcl with ⟨h, hn⟩ | ⟨h, hn⟩ | ⟨h, hn⟩
      · exact hE (Or.inl ⟨h, hn⟩)
      · exact hE (Or.inr (Or.inl ⟨h, by omega⟩))
      · exact hE (Or.inr (Or.inr ⟨h, hn⟩))

/-- Witness for C4 at a concrete ten byte IPv4 datagram, which falls on
the rejected side of the equivalence. -/
theorem outbound_length_guard_witness :
    ((∃ e, processOutboundDatagram [0, 0, 0, 1, 8, 8, 8, 8, 0, 53] = .rejected e) ↔
      ((bufGet [0, 0, 0, 1, 8, 8, 8, 8, 0, 53] 3 = 1 ∧
          List.length [0, 0, 0, 1, 8, 8, 8, 8, 0, 53] ≤ 10) ∨
       (bufGet [0, 0, 0, 1, 8, 8, 8, 8, 0, 53] 3 = 3 ∧
          List.length [0, 0, 0, 1, 8, 8, 8, 8, 0, 53] ≤
            6 + bufGet [0, 0, 0, 1, 8, 8, 8, 8, 0, 53] 4) ∨
       (bufGet [0, 0, 0, 1, 8, 8, 8, 8, 0, 53] 3 = 4 ∧
          List.length [0, 0, 0, 1, 8, 8, 8, 8, 0, 53] ≤ 22))) ∧
    processOutboundDatagram [0, 0, 0, 1, 8, 8, 8, 8, 0, 53] =
      .rejected .noEnoughData :=
  ⟨outbound_length_guard [0, 0, 0, 1, 8, 8, 8, 8, 0, 53]
      (by decide) (by decide) (by decide) (by decide),
   by decide⟩

/-- C10 counterexample: at Port equal to 65536 + 65536 (the case k =
65536 of the claim), the two port bytes of the reply are 0 and 0, which
encode the value 0 and not k: for k at least 2 ^ 16 the claimed encoding
of k is impossible in two bytes, and the code encodes k modulo 2 ^ 16. -/
theorem sendReply_port_overflow :
    sendReplyMsg successReply (some ⟨[], [1, 2, 3, 4], 65536 + 65536⟩) =
      some [5, 0, 0, 1, 1, 2, 3, 4, 0, 0] ∧
    portVal 0 0 = 0 ∧ (0 : Nat) ≠ 65536 := by decide

/-- C10 amended: sendReply reduces the Port field modulo 2 ^ 16 when
encoding the two port bytes: for every non nil address that formats
successfully with Port = 65536 + k where 0 ≤ k < 65536, the last two
bytes of the reply are the big endian encoding of k (neither a failure
nor saturation). -/
theorem sendReply_port_mod (resp : Nat) (a : AddrSpec) (msg : List Nat) (k : Nat)
    (hk : k < 65536) (hp : a.Port = 65536 + (k : Int))
    (hmsg : sendReplyMsg resp (some a) = some msg) :
    msg.drop (msg.length - 2) = [k / 256, k % 256] := by
  have hpb : portBytes a.Port = [k / 256, k % 256] := by
    have hu : (a.Port % 65536).toNat = k := by rw [hp]; omega
    simp [portBytes, hu, shiftRight8, and255]
  rcases a with ⟨F, IP, P⟩
  simp only [sendReplyMsg] at hmsg
  by_cases hF : F = []
  · simp only [hF, ne_eq, not_true_eq_false, if_false] at hmsg
    rcases h4 : ipTo4 IP with _ | ip4
    · rcases h16 : ipTo16 IP with _ | ip16
      · rw [h4, h16] at hmsg
        simp at hmsg
      · rw [h4, h16] at hmsg
        simp only [Option.some.injEq] at hmsg
        subst hmsg
        rw [show [socks5Version, resp, 0, ipv6Address] ++ ip16 ++ portBytes P =
            ([socks5Version, resp, 0, ipv6Address] ++ ip16) ++ portBytes P from by
          simp [List.append_assoc]]
        rw [hpb]
        exact drop_length_sub_two _ _ _
    · rw [h4] at hmsg
      simp only [Option.some.injEq] at hmsg
      subst hmsg
      rw [show [socks5Version, resp, 0, ipv4Address] ++ ip4 ++ portBytes P =
          ([socks5Version, resp, 0, ipv4Address] ++ ip4) ++ portBytes P from by
        simp [List.append_assoc]]
      rw [hpb]
      exact drop_length_sub_two _ _ _
  · simp only [ne_eq, hF, not_false_eq_true, if_true, Option.some.injEq] at hmsg
    subst hmsg
    rw [show [socks5Version, resp, 0, fqdnAddress] ++ (F.length % 256 :: F) ++ portBytes P =
        ([socks5Version, resp, 0, fqdnAddress] ++ (F.length % 256 :: F)) ++ portBytes P from by
      simp [List.append_assoc]]
    rw [hpb]
    exact drop_length_sub_two _ _ _

/-- Witness for C10 amended at k = 100: Port 65636 encodes as bytes 0 and
100. -/
theorem sendReply_port_mod_witness :
    List.drop ((List.length [5, 0, 0, 1, 1, 2, 3, 4, 0, 100]) - 2)
        [5, 0, 0, 1, 1, 2, 3, 4, 0, 100] = [100 / 256, 100 % 256] :=
  sendReply_port_mod 0 ⟨[], [1, 2, 3, 4], 65536 + 100⟩
    [5, 0, 0, 1, 1, 2, 3, 4, 0, 100] 100 (by decide) (by decide) (by decide)

/-- C6: when the TCP dial of the CONNECT handler fails, exactly one
reply is written, its code is determined by the error text (refused
yields connectionRefused, else network is unreachable yields
networkUnreachable, else hostUnreachable), the handler returns an error,
and no relay occurs (the outcome is failed, never relaying). -/
theorem connect_dial_failure (writeOk : Bool) (msg : List Char) :
    handleConnect writeOk (.fail msg) =
      .failed [[5, classifyDialError msg, 0, 1, 0, 0, 0, 0, 0, 0]]
        (if writeOk then .dialFailed else .sendReplyFailed) ∧
    (containsSub msg refusedText = true → classifyDialError msg = connectionRefused) ∧
    (containsSub msg refusedText = false → containsSub msg netUnreachableText = true →
      classifyDialError msg = networkUnreachable) ∧
    (containsSub msg refusedText = false → containsSub msg netUnreachableText = false →
      classifyDialError msg = hostUnreachable) := by
  refine ⟨?_, ?_, ?_, ?_⟩
  · simp [handleConnect, sendReplyMsg, socks5Version, ipv4Address]
  · intro h
    simp [classifyDialError, h, connectionRefused]
  · intro h1 h2
    simp [classifyDialError, h1, h2, networkUnreachable]
  · intro h1 h2
    simp [classifyDialError, h1, h2, hostUnreachable]

/-- Witness for C6 at a dial error text containing refused. -/
theorem connect_dial_failure_witness :
    handleConnect true (.fail ("connection refused".toList)) =
      .failed [[5, connectionRefused, 0, 1, 0, 0, 0, 0, 0, 0]] .dialFailed ∧
    classifyDialError ("connection refused".toList) = connectionRefused := by
  have h := connect_dial_failure true ("connection refused".toList)
  have hc : containsSub ("connection refused".toList) refusedText = true := by decide
  refine ⟨?_, h.2.1 hc⟩
  rw [h.1, h.2.1 hc]
  simp

/-- C7: every BIND request that reaches dispatch (the resolve step
proceeded and the local destination policy passed) produces exactly one
reply, whose code is commandNotSupported, the handler performs no relay
I/O afterwards (the outcome is done), and when the reply write succeeds
the returned error is none. -/
theorem bind_always_refused (cfg : ServerConfig) (writeOk : Bool)
    (req req1 : Request)
    (hpre : resolveDest cfg writeOk req = .proceed req1)
    (hpol : ¬(cfg.allowLocalDestination = false ∧ isLocalhostDest req1 = true))
    (hcmd : req1.Command = BindCommand) :
    handleRequest cfg writeOk req =
      .done [[5, commandNotSupported, 0, 1, 0, 0, 0, 0, 0, 0]]
        (if writeOk then none else some .sendReplyFailed) := by
  unfold handleRequest
  rw [hpre]
  simp [hpol, hcmd, BindCommand, ConnectCommand, handleBind, sendReplyMsg,
    socks5Version, ipv4Address, commandNotSupported]

/-- Witness for C7 at a concrete BIND request with a succeeding reply
write. -/
theorem bind_always_refused_witness :
    handleRequest ⟨fun _ => .ok [], true⟩ true ⟨5, 2, none, ⟨[], [9, 9, 9, 9], 80⟩⟩ =
      .done [[5, commandNotSupported, 0, 1, 0, 0, 0, 0, 0, 0]] none := by
  have h := bind_always_refused ⟨fun _ => .ok [], true⟩ true
    ⟨5, 2, none, ⟨[], [9, 9, 9, 9], 80⟩⟩ ⟨5, 2, none, ⟨[], [9, 9, 9, 9], 80⟩⟩
    (by simp [resolveDest]) (by simp) rfl
  simpa using h

/-- C8: when local destination access is disabled and the destination is
the literal FQDN localhost or a loopback IP (with resolution succeeding
whenever an FQDN is present, so that the policy check is reached),
handleRequest terminates with an error and the list of replies written to
the connection is empty. -/
theorem policy_denied_no_reply (cfg : ServerConfig) (writeOk : Bool) (req : Request)
    (hallow : cfg.allowLocalDestination = false)
    (hdest : req.DestAddr.FQDN = localhostBytes ∨
      (req.DestAddr.FQDN = [] ∧ ipIsLoopback req.DestAddr.IP = true))
    (hres : req.DestAddr.FQDN = [] ∨ ∃ ip, cfg.resolver req.DestAddr.FQDN = .ok ip) :
    handleRequest cfg writeOk req = .done [] (some .policyDenied) := by
  unfold handleRequest resolveDest
  rcases hdest with hd | ⟨hd, hloop⟩
  · have hne : req.DestAddr.FQDN ≠ [] := by
      rw [hd]
      decide
    rcases hres with h | ⟨ip, hip⟩
    · exact absurd h hne
    · rw [hd] at hip
      simp [hne, hd, hip, hallow, isLocalhostDest,
        show localhostBytes ≠ [] from by decide]
  · simp [hd, hallow, isLocalhostDest, hloop, localhostBytes]

/-- Witness for C8 at a loopback IPv4 destination with local access
disabled. -/
theorem policy_denied_no_reply_witness :
    handleRequest ⟨fun _ => .ok [127, 0, 0, 1], false⟩ true
        ⟨5, 1, none, ⟨[], [127, 0, 0, 1], 80⟩⟩ =
      .done [] (some .policyDenied) :=
  policy_denied_no_reply ⟨fun _ => .ok [127, 0, 0, 1], false⟩ true
    ⟨5, 1, none, ⟨[], [127, 0, 0, 1], 80⟩⟩ rfl
    (Or.inr ⟨rfl, by decide⟩) (Or.inl rfl)

/-- C3 counterexample: the 16 byte IPv4 mapped IPv6 address does not
round trip to an AddrSpec with the same address bytes: sendReply encodes
it through To4 as the IPv4 wire type, and reading the body back yields
the 4 byte form, a different address family and different bytes. -/
theorem addrSpec_roundtrip_mapped_cex :
    List.length ([0, 0, 0, 0, 0, 0, 0, 0, 0, 0, 255, 255, 1, 2, 3, 4] : List Nat) = 16 ∧
    sendReplyMsg 0 (some ⟨[], [0, 0, 0, 0, 0, 0, 0, 0, 0, 0, 255, 255, 1, 2, 3, 4], 53⟩) =
      some [5, 0, 0, 1, 1, 2, 3, 4, 0, 53] ∧
    readAddrSpec (List.drop 3 [5, 0, 0, 1, 1, 2, 3, 4, 0, 53]) =
      (.ok ⟨[], [1, 2, 3, 4], 53⟩, []) ∧
    ([1, 2, 3, 4] : List Nat) ≠ [0, 0, 0, 0, 0, 0, 0, 0, 0, 0, 255, 255, 1, 2, 3, 4] := by
  decide

/-- C3 amended: for every valid AddrSpec with port in range, reading back
the address body written by sendReply reconstructs the canonical form of
the input: identical FQDN, address bytes and port for the IPv4, FQDN and
non mapped IPv6 classes, while a 16 byte IPv4 mapped address comes back
as the IPv4 family with its corresponding 4 address bytes and the same
port. -/
theorem addrSpec_roundtrip (resp : Nat) (V : AddrSpec)
    (hvalid : validAddrSpec V) (h0 : 0 ≤ V.Port) (hlt : V.Port < 65536) :
    ∃ msg, sendReplyMsg resp (some V) = some msg ∧
      readAddrSpec (msg.drop 3) = (.ok (canonicalAddrSpec V), []) := by
  rcases V with ⟨F, IP, P⟩
  have h0' : 0 ≤ P := h0
  have hlt' : P < 65536 := hlt
  have hport : (portVal (((P % 65536).toNat) >>> 8) (((P % 65536).toNat) &&& 255) : Int) = P := by
    rw [portVal_recomb]
    omega
  have hpbytes : portBytes P = [(P % 65536).toNat >>> 8, (P % 65536).toNat &&& 255] := rfl
  rcases hvalid with ⟨hF, hIP⟩ | ⟨hF, hlen, hIPnil⟩
  · simp only at hF hIP
    subst hF
    rcases hIP with h4 | h16
    · have hTo4 : ipTo4 IP = some IP := by simp [ipTo4, h4]
      refine ⟨[5, resp, 0, 1] ++ IP ++ portBytes P, ?_, ?_⟩
      · simp [sendReplyMsg, hTo4, socks5Version, ipv4Address]
      · have hdrop : ([5, resp, 0, 1] ++ IP ++ portBytes P).drop 3 =
            1 :: (IP ++ portBytes P) := by
          simp [List.append_assoc]
        rw [hdrop, hpbytes, readAddrSpec_ipv4_eval IP h4 _ _, hport]
        simp [canonicalAddrSpec, hTo4]
    · by_cases hmap : ((IP.take 10).all (· = 0) ∧ IP.getD 10 0 = 255 ∧ IP.getD 11 0 = 255)
      · have hTo4 : ipTo4 IP = some (IP.drop 12) := by
          unfold ipTo4
          rw [if_neg (by omega), if_pos ⟨h16, hmap⟩]
        have h4d : (IP.drop 12).length = 4 := by simp [h16]
        refine ⟨[5, resp, 0, 1] ++ IP.drop 12 ++ portBytes P, ?_, ?_⟩
        · simp [sendReplyMsg, hTo4, socks5Version, ipv4Address]
        · have hdrop : ([5, resp, 0, 1] ++ IP.drop 12 ++ portBytes P).drop 3 =
              1 :: (IP.drop 12 ++ portBytes P) := by
            simp [List.append_assoc]
          rw [hdrop, hpbytes, readAddrSpec_ipv4_eval (IP.drop 12) h4d _ _, hport]
          simp [canonicalAddrSpec, hTo4]
      · have hTo4 : ipTo4 IP = none := by
          unfold ipTo4
          rw [if_neg (by omega), if_neg (fun hc => hmap hc.2)]
        have hTo16 : ipTo16 IP = some IP := by
          unfold ipTo16
          rw [if_neg (by omega), if_pos h16]
        refine ⟨[5, resp, 0, 4] ++ IP ++ portBytes P, ?_, ?_⟩
        · simp [sendReplyMsg, hTo4, hTo16, socks5Version, ipv6Address]
        · have hdrop : ([5, resp, 0, 4] ++ IP ++ portBytes P).drop 3 =
              4 :: (IP ++ portBytes P) := by
            simp [List.append_assoc]
          rw [hdrop, hpbytes, readAddrSpec_ipv6_eval IP h16 _ _, hport]
          simp [canonicalAddrSpec, hTo4]
  · simp only at hF hlen hIPnil
    refine ⟨[5, resp, 0, 3] ++ ((F.length % 256) :: F) ++ portBytes P, ?_, ?_⟩
    · simp [sendReplyMsg, hF, socks5Version, fqdnAddress]
    · have hdrop : ([5, resp, 0, 3] ++ ((F.length % 256) :: F) ++ portBytes P).drop 3 =
          3 :: (F.length % 256) :: (F ++ portBytes P) := by
        simp [List.append_assoc]
      rw [hdrop, hpbytes, readAddrSpec_fqdn_eval F hlen _ _, hport]
      simp [canonicalAddrSpec, hF]

/-- Witness for C3 amended at a concrete 4 byte IPv4 address, where the
canonical form is the address itself. -/
theorem addrSpec_roundtrip_witness :
    ∃ msg, sendReplyMsg 0 (some ⟨[], [9, 9, 9, 9], 443⟩) = some msg ∧
      readAddrSpec (msg.drop 3) = (.ok (canonicalAddrSpec ⟨[], [9, 9, 9, 9], 443⟩), []) :=
  addrSpec_roundtrip 0 ⟨[], [9, 9, 9, 9], 443⟩
    (Or.inl ⟨rfl, Or.inl rfl⟩) (by decide) (by decide)

end Mieru.Socks5
